import Mathlib

/-!
Shallow embedding of the FastAPI users-API gateway
(repository `joshbarros/fastapi-users-api`).

The repository's `src/` holds `app/main.py` (routes, authentication
dependencies), `app/core/config.py` (settings) and `app/db/init_db.py`
(seed users).  The token codec (`app/core/security.py`) and the
credential-store CRUD layer (`app/crud/user.py`) are imported by
`main.py` but their sources are not available, so those two components
are modelled from the specification (section 4.1 Token Codec and
section 4.3 Credential Store); every such definition carries a
doc comment beginning `Modelled from the spec:`.

Time is modelled as a natural number of abstract units (the code uses
minutes for the TTL); a request is handled at a single instant `now`.
HTTP behaviour is modelled per request: each route is a function of the
database, settings values, the presented token and the upstream
service's behaviour (given as an explicit outcome or oracle), returning
the response the route produces together with the upstream request it
issued, if any.
-/

namespace FastapiUsersApi

/-- The JWT payload built by `login_for_access_token` in `app/main.py`:
claims `sub`, `role`, `ext_token` (each possibly absent in an
arbitrary token) plus the expiry timestamp `exp` added by
`create_access_token`. -/
structure Payload where
  sub : Option String
  role : Option String
  ext_token : Option String
  exp : Nat
deriving Repr, DecidableEq

/-- A signed session token: the claims payload together with the
signature bytes.  The string-level JWT serialization is abstracted
away; the signature segment is kept as an explicit byte list so that
byte-level tampering can be stated. -/
structure Token where
  payload : Payload
  sig : List Nat
deriving Repr, DecidableEq

/-- Byte view of a string (Unicode code points). -/
def charBytes (s : String) : List Nat :=
  s.data.map Char.toNat

/-- Serialization of an optional claim into bytes (tag byte then
content). -/
def optBytes : Option String → List Nat
  | none => [0]
  | some s => 1 :: charBytes s

/-- Serialization of a payload into bytes, used as the message input of
the signing function. -/
def payloadBytes (p : Payload) : List Nat :=
  optBytes p.sub ++ optBytes p.role ++ optBytes p.ext_token ++ [p.exp]

/-- Separator value strictly larger than any Unicode code point, so the
secret segment of a signature can be recovered unambiguously. -/
def SIG_SEP : Nat := 1114112

/-- Modelled from the spec: `app/core/security.py` is not under `src/`.
Section 4.1: `encode` "signs with a server-held secret using a
symmetric signing algorithm".  The symmetric MAC is idealized as an
injective function of the secret and the message, so that signature
verification succeeds exactly for the secret and payload that produced
the signature. -/
def sign (secret : String) (p : Payload) : List Nat :=
  charBytes secret ++ SIG_SEP :: payloadBytes p

/-- Decode failures of the Token Codec, spec section 4.1:
`DecodeError::BadSignature | Expired | Malformed`.  (`Malformed`
covers token strings that do not parse into a payload-plus-signature
structure at all; structural tokens in this embedding always parse, so
only the other two kinds arise here.) -/
inductive DecodeError where
  | Malformed
  | BadSignature
  | Expired
deriving Repr, DecidableEq

/-- Modelled from the spec: `decode_access_token` of
`app/core/security.py` is not under `src/`.  Section 4.1 `decode`:
"verifies signature, checks expiry, deserializes claims. Fails with
`DecodeError::BadSignature` if signature verification fails,
`DecodeError::Expired` if `now >= expires_at`". -/
def decode_access_token (secret : String) (now : Nat) (tok : Token) :
    Except DecodeError Payload :=
  if tok.sig ≠ sign secret tok.payload then .error .BadSignature
  else if tok.payload.exp ≤ now then .error .Expired
  else .ok tok.payload

/-- Modelled from the spec: `create_access_token` of
`app/core/security.py` is not under `src/`.  Section 4.1 `encode`:
"serializes claims plus `issued_at = now`, `expires_at = now + ttl`,
signs with a server-held secret".  The call site in `app/main.py`
passes `data = {sub, role, ext_token}` and
`expires_delta = ACCESS_TOKEN_EXPIRE_MINUTES`. -/
def create_access_token (secret : String) (now : Nat)
    (sub role ext : Option String) (expires_delta : Nat) : Token :=
  let p : Payload :=
    { sub := sub, role := role, ext_token := ext, exp := now + expires_delta }
  { payload := p, sig := sign secret p }

/-- A user record of the credential store, spec section 3 `UserRecord`
and the `User` model used by `app/main.py` (fields `username`,
hashed password, `role`, `is_active`; roles are plain strings in the
code, `"user"` and `"admin"` for the seeded users). -/
structure UserRecord where
  username : String
  hashed_password : String
  role : String
  is_active : Bool
deriving Repr, DecidableEq

/-- The credential store is the list of user records. -/
abbrev Db := List UserRecord

/-- Modelled from the spec: `get_user` of `app/crud/user.py` is not
under `src/`.  Section 4.3 `lookup(username) -> Option<UserRecord>`:
looks up a record by username. -/
def get_user (db : Db) (username : String) : Option UserRecord :=
  db.find? (fun u => u.username == username)

/-- Modelled from the spec: the password-hashing helper of the missing
CRUD layer.  The hash is idealized as an injective tagging function;
only the round-trip `verify_password p (get_password_hash p) = true`
matters for the claims. -/
def get_password_hash (password : String) : String :=
  "bcrypt$" ++ password

/-- Modelled from the spec: password verification, section 4.3
"compares password against stored hash". -/
def verify_password (plain hashed : String) : Bool :=
  get_password_hash plain == hashed

/-- Modelled from the spec: `authenticate_user` of `app/crud/user.py`
is not under `src/`.  Section 4.3 `verify_login`: "looks up by
username, compares password against stored hash ... returns the record
only if match and active". -/
def authenticate_user (db : Db) (username password : String) :
    Option UserRecord :=
  match get_user db username with
  | none => none
  | some u =>
      if verify_password password u.hashed_password && u.is_active then some u
      else none

/-- The seed users of `app/db/init_db.py` (`INITIAL_USERS`), stored
with the modelled password hash. -/
def INITIAL_USERS : Db :=
  [⟨"user", get_password_hash "L0XuwPOdS5U", "user", true⟩,
   ⟨"admin", get_password_hash "JKSipm0YH", "admin", true⟩]

/-- An HTTP error response: `HTTPException(status_code, detail)` in
`app/main.py`. -/
structure HTTPError where
  status : Nat
  detail : String
deriving Repr, DecidableEq

/-- The single generic 401 raised for every authentication failure in
`get_current_user` (`app/main.py`). -/
def credentials_exception : HTTPError :=
  ⟨401, "Could not validate credentials"⟩

/-- `get_current_user` of `app/main.py`: decodes the presented token
(any decode error or missing `sub`/`role` claim raises the generic
401), then re-checks the subject against the credential store — the
user must still exist and its stored role must equal the token's role
claim; on success the stored record is returned. -/
def get_current_user (db : Db) (secret : String) (now : Nat)
    (tok : Token) : Except HTTPError UserRecord :=
  match decode_access_token secret now tok with
  | .error _ => .error credentials_exception
  | .ok payload =>
      match payload.sub with
      | none => .error credentials_exception
      | some username =>
          match payload.role with
          | none => .error credentials_exception
          | some role =>
              match get_user db username with
              | none => .error credentials_exception
              | some user =>
                  if user.role ≠ role then .error credentials_exception
                  else .ok user

/-- `get_current_active_user` of `app/main.py`: rejects a deactivated
user with `HTTPException(400, "Inactive user")`. -/
def get_current_active_user (db : Db) (secret : String) (now : Nat)
    (tok : Token) : Except HTTPError UserRecord :=
  match get_current_user db secret now tok with
  | .error e => .error e
  | .ok user =>
      if !user.is_active then .error ⟨400, "Inactive user"⟩
      else .ok user

/-- A GET request the gateway issues to the upstream API: the full URL
and the credential placed in the `Authorization: Bearer` header
(`app/main.py`, `read_user_route` / `read_admin_route`). -/
structure UpstreamRequest where
  url : String
  bearer : String
deriving Repr, DecidableEq

/-- Per-request behaviour of the upstream API for a proxied GET:
either the transport fails (`httpx` raises), or a response arrives
whose body parses as JSON (`response (some body)`) or does not parse
(`response none`, making `response.json()` raise). -/
inductive UpstreamOutcome where
  | unreachable
  | response (body : Option String)
deriving Repr, DecidableEq

/-- What a protected route returns: a 200 passing the upstream JSON
body through, or an error response. -/
inductive RouteResult where
  | success (body : String)
  | failure (e : HTTPError)
deriving Repr, DecidableEq

/-- Status code of a route result (200 on success). -/
def RouteResult.statusOf : RouteResult → Nat
  | .success _ => 200
  | .failure e => e.status

/-- `read_user_route` of `app/main.py` (`GET /user`).  After
`get_current_active_user`, a stored role outside `{"user","admin"}`
gets 403; then, inside a `try` block whose handler turns any exception
into a 500, the token is decoded again, a falsy `ext_token` claim
raises a 401 that the handler re-raises as 500, and otherwise a GET is
forwarded to `{base}/user` with the embedded credential as Bearer
header; a transport failure or unparseable body also becomes 500.
The second component records the upstream request issued, if any. -/
def read_user_route (db : Db) (secret base : String) (now : Nat)
    (tok : Token) (upstream : UpstreamRequest → UpstreamOutcome) :
    RouteResult × Option UpstreamRequest :=
  match get_current_active_user db secret now tok with
  | .error e => (.failure e, none)
  | .ok current_user =>
      if current_user.role ≠ "user" ∧ current_user.role ≠ "admin" then
        (.failure ⟨403, "Not enough permissions"⟩, none)
      else
        match decode_access_token secret now tok with
        | .error _ => (.failure ⟨500, "decode error"⟩, none)
        | .ok payload =>
            if (payload.ext_token.getD "") = "" then
              (.failure ⟨500, "401: External token not found"⟩, none)
            else
              let req : UpstreamRequest :=
                ⟨base ++ "/user", payload.ext_token.getD ""⟩
              match upstream req with
              | .unreachable =>
                  (.failure ⟨500, "upstream connection error"⟩, some req)
              | .response none =>
                  (.failure ⟨500, "response body is not JSON"⟩, some req)
              | .response (some body) => (.success body, some req)

/-- `read_admin_route` of `app/main.py` (`GET /admin`): identical to
`read_user_route` except the stored role must be exactly `"admin"` and
the proxied path is `{base}/admin`. -/
def read_admin_route (db : Db) (secret base : String) (now : Nat)
    (tok : Token) (upstream : UpstreamRequest → UpstreamOutcome) :
    RouteResult × Option UpstreamRequest :=
  match get_current_active_user db secret now tok with
  | .error e => (.failure e, none)
  | .ok current_user =>
      if current_user.role ≠ "admin" then
        (.failure ⟨403, "Not enough permissions"⟩, none)
      else
        match decode_access_token secret now tok with
        | .error _ => (.failure ⟨500, "decode error"⟩, none)
        | .ok payload =>
            if (payload.ext_token.getD "") = "" then
              (.failure ⟨500, "401: External token not found"⟩, none)
            else
              let req : UpstreamRequest :=
                ⟨base ++ "/admin", payload.ext_token.getD ""⟩
              match upstream req with
              | .unreachable =>
                  (.failure ⟨500, "upstream connection error"⟩, some req)
              | .response none =>
                  (.failure ⟨500, "response body is not JSON"⟩, some req)
              | .response (some body) => (.success body, some req)

/-- Behaviour of the upstream token endpoint for one login: the
transport fails, or a response with a status code arrives; on a 200
the body either holds an `access_token` value or does not (a missing
key or non-JSON body makes `response.json()["access_token"]` raise). -/
inductive ExchangeOutcome where
  | unreachable
  | resp (status : Nat) (body_access_token : Option String)
deriving Repr, DecidableEq

/-- The 200 body of `POST /token`:
`{access_token, token_type: "bearer", role}`. -/
structure LoginOk where
  access_token : Token
  token_type : String
  role : String
deriving Repr, DecidableEq

/-- `login_for_access_token` of `app/main.py` (`POST /token`): a
failed local credential check returns 401 before anything else; then,
inside a `try` block whose handler turns any exception into a 500, the
credentials are exchanged with the upstream token endpoint — a
transport failure, a non-200 upstream status (whose inner
`HTTPException` is swallowed by the same handler) or a missing
`access_token` in the body all end as 500 — and on success a session
token embedding `sub`, `role` and the upstream `ext_token` is minted
with the configured TTL. -/
def login_for_access_token (db : Db) (secret : String)
    (expireMinutes : Nat) (now : Nat) (username password : String)
    (exchange : ExchangeOutcome) : Except HTTPError LoginOk :=
  match authenticate_user db username password with
  | none => .error ⟨401, "Incorrect username or password"⟩
  | some user =>
      match exchange with
      | .unreachable => .error ⟨500, "upstream connection error"⟩
      | .resp status body =>
          if status ≠ 200 then
            .error ⟨500, "upstream token endpoint rejected the exchange"⟩
          else
            match body with
            | none => .error ⟨500, "access_token missing from response"⟩
            | some external_token =>
                .ok ⟨create_access_token secret now (some user.username)
                       (some user.role) (some external_token) expireMinutes,
                     "bearer", user.role⟩

/-- Status code of a login result (200 on success). -/
def loginStatus : Except HTTPError LoginOk → Nat
  | .ok _ => 200
  | .error e => e.status

/-- The settings of `app/core/config.py`: each field reads its value
from the environment (or `.env` file) and otherwise falls back to its
default; the `SECRET_KEY` default is `secrets.token_urlsafe(32)`,
a fresh random value drawn once per process start, modelled here as an
explicit `freshRandomKey` input. -/
def effectiveSecretKey (envSecret : Option String)
    (freshRandomKey : String) : String :=
  envSecret.getD freshRandomKey

/-- Default of `ACCESS_TOKEN_EXPIRE_MINUTES` in `app/core/config.py`. -/
def ACCESS_TOKEN_EXPIRE_MINUTES : Nat := 30

/-- Default of `FAKE_API_BASE_URL` in `app/core/config.py`. -/
def FAKE_API_BASE_URL : String :=
  "https://api-onecloud.multicloud.tivit.com/fake"

/-! Helper lemmas -/

/-- Distinct characters have distinct code points. -/
theorem char_toNat_injective : Function.Injective Char.toNat :=
  fun c d hcd =>
    Char.ofNat_toNat c ▸ Char.ofNat_toNat d ▸ congrArg Char.ofNat hcd

/-- The byte view of a string determines the string. -/
theorem charBytes_injective {s t : String} (h : charBytes s = charBytes t) :
    s = t :=
  String.ext (List.map_injective_iff.mpr char_toNat_injective h)

/-- Signatures over the same payload under different secrets differ:
the idealized MAC is injective in the secret. -/
theorem sign_secret_injective {s t : String} (p : Payload)
    (h : sign s p = sign t p) : s = t := by
  unfold sign at h
  exact charBytes_injective (List.append_cancel_right h)

/-- A successful decode always returns the token's own payload. -/
theorem decode_ok_payload {secret : String} {now : Nat} {tok : Token}
    {p : Payload} (h : decode_access_token secret now tok = .ok p) :
    p = tok.payload := by
  unfold decode_access_token at h
  split at h
  · cases h
  · split at h
    · cases h
    · exact (Except.ok.inj h).symm

/-- If `get_current_user` succeeds then the token decoded successfully
(to its own payload). -/
theorem get_current_user_ok_decode {db : Db} {secret : String}
    {now : Nat} {tok : Token} {u : UserRecord}
    (h : get_current_user db secret now tok = .ok u) :
    decode_access_token secret now tok = .ok tok.payload := by
  unfold get_current_user at h
  split at h
  · cases h
  · next payload heq =>
    rw [heq, decode_ok_payload heq]

/-- Every error of `get_current_user` is the single generic 401. -/
theorem get_current_user_error_generic (db : Db) (secret : String)
    (now : Nat) (tok : Token) :
    ∀ e, get_current_user db secret now tok = .error e →
      e = credentials_exception := by
  intro e he
  unfold get_current_user at he
  split at he
  · exact (Except.error.inj he).symm
  · split at he
    · exact (Except.error.inj he).symm
    · split at he
      · exact (Except.error.inj he).symm
      · split at he
        · exact (Except.error.inj he).symm
        · split at he
          · exact (Except.error.inj he).symm
          · cases he

/-- Every error of `get_current_active_user` is either the generic 401
or the 400 inactive-user error. -/
theorem get_current_active_user_error_cases (db : Db) (secret : String)
    (now : Nat) (tok : Token) :
    ∀ e, get_current_active_user db secret now tok = .error e →
      e = credentials_exception ∨ e = ⟨400, "Inactive user"⟩ := by
  intro e he
  unfold get_current_active_user at he
  split at he
  · next e2 heq =>
    exact Or.inl ((Except.error.inj he).symm ▸
      get_current_user_error_generic db secret now tok e2 heq)
  · split at he
    · exact Or.inr (Except.error.inj he).symm
    · cases he

/-- If `get_current_active_user` succeeds then `get_current_user`
succeeded with the same record. -/
theorem get_current_active_user_ok {db : Db} {secret : String}
    {now : Nat} {tok : Token} {u : UserRecord}
    (h : get_current_active_user db secret now tok = .ok u) :
    get_current_user db secret now tok = .ok u := by
  unfold get_current_active_user at h
  split at h
  · cases h
  · next user heq =>
    split at h
    · cases h
    · rw [Except.ok.inj h] at heq
      exact heq

/-! Token Codec claims -/

/-- C5: decoding a freshly encoded token before its expiry succeeds
and recovers the subject, role and embedded upstream credential
unchanged, with `exp = now + ttl`. -/
theorem C5_decode_encode_roundtrip (secret : String) (now ttl t : Nat)
    (sub role ext : Option String) (h : t < now + ttl) :
    decode_access_token secret t
        (create_access_token secret now sub role ext ttl)
      = .ok { sub := sub, role := role, ext_token := ext, exp := now + ttl } := by
  simp [decode_access_token, create_access_token, not_le.mpr h]

/-- Witness for C5 at a concrete claims structure and TTL. -/
theorem C5_decode_encode_roundtrip_witness :
    (0 : Nat) < 0 + 30 ∧
    decode_access_token "k" 0
        (create_access_token "k" 0 (some "user") (some "user") (some "EXT") 30)
      = .ok { sub := some "user", role := some "user",
              ext_token := some "EXT", exp := 0 + 30 } :=
  ⟨by decide,
   C5_decode_encode_roundtrip "k" 0 30 0 (some "user") (some "user")
     (some "EXT") (by decide)⟩

/-- C6: tampering with any single byte of a valid signature makes
decode fail with `BadSignature`; more generally decode never succeeds
when the signature segment differs from the correct signature. -/
theorem C6_signature_tamper (secret : String) (t : Nat) (p : Payload)
    (pre post : List Nat) (b c : Nat)
    (hsig : sign secret p = pre ++ c :: post) (hbc : b ≠ c) :
    decode_access_token secret t ⟨p, pre ++ b :: post⟩
      = .error .BadSignature ∧
    ∀ sig2, sig2 ≠ sign secret p →
      decode_access_token secret t ⟨p, sig2⟩ = .error .BadSignature := by
  constructor
  · have hne : pre ++ b :: post ≠ sign secret p := by
      rw [hsig]
      intro heq
      have h2 := List.append_cancel_left heq
      simp only [List.cons.injEq] at h2
      exact hbc h2.1
    simp [decode_access_token, hne]
  · intro sig2 h2
    simp [decode_access_token, h2]

/-- Witness for C6: flipping the first signature byte of a concrete
valid token yields `BadSignature`, as does an empty signature. -/
theorem C6_signature_tamper_witness :
    decode_access_token "k" 0
        ⟨⟨some "u", some "user", some "E", 30⟩,
          [] ++ 0 :: (SIG_SEP :: payloadBytes ⟨some "u", some "user", some "E", 30⟩)⟩
      = .error .BadSignature ∧
    decode_access_token "k" 0
        ⟨⟨some "u", some "user", some "E", 30⟩, []⟩
      = .error .BadSignature :=
  ⟨(C6_signature_tamper "k" 0 ⟨some "u", some "user", some "E", 30⟩
      [] (SIG_SEP :: payloadBytes ⟨some "u", some "user", some "E", 30⟩)
      0 107 (by rfl) (by decide)).1,
   (C6_signature_tamper "k" 0 ⟨some "u", some "user", some "E", 30⟩
      [] (SIG_SEP :: payloadBytes ⟨some "u", some "user", some "E", 30⟩)
      0 107 (by rfl) (by decide)).2 [] (by decide)⟩

/-- C7: a token minted with TTL 0 fails decode with `Expired` at any
time at or after issuance; in general decode fails with `Expired` on
any correctly signed token whose `exp` is at or before the check
time. -/
theorem C7_ttl_zero_expired (secret : String) (now t : Nat)
    (sub role ext : Option String) (h : now ≤ t) :
    decode_access_token secret t
        (create_access_token secret now sub role ext 0)
      = .error .Expired ∧
    ∀ tok : Token, tok.sig = sign secret tok.payload →
      tok.payload.exp ≤ t →
      decode_access_token secret t tok = .error .Expired := by
  constructor
  · simp [decode_access_token, create_access_token, h]
  · intro tok h1 h2
    simp [decode_access_token, h1, h2]

/-- Witness for C7 at a concrete token with TTL 0 checked at issuance
time. -/
theorem C7_ttl_zero_expired_witness :
    decode_access_token "k" 5
        (create_access_token "k" 5 (some "user") (some "user") (some "EXT") 0)
      = .error .Expired ∧
    decode_access_token "k" 5
        ⟨⟨some "u", none, none, 3⟩, sign "k" ⟨some "u", none, none, 3⟩⟩
      = .error .Expired :=
  ⟨(C7_ttl_zero_expired "k" 5 5 (some "user") (some "user") (some "EXT")
      (by decide)).1,
   (C7_ttl_zero_expired "k" 5 5 (some "user") (some "user") (some "EXT")
      (by decide)).2 ⟨⟨some "u", none, none, 3⟩, sign "k" ⟨some "u", none, none, 3⟩⟩
      rfl (by decide)⟩

/-- C10: with no `SECRET_KEY` in the environment the effective secret
is the per-process fresh random value, so two processes whose random
draws differ use different secrets, and every token minted by the
first fails signature verification when decoded by the second. -/
theorem C10_default_secret_not_portable (r1 r2 : String) (hne : r1 ≠ r2)
    (now ttl t : Nat) (sub role ext : Option String) :
    effectiveSecretKey none r1 = r1 ∧ effectiveSecretKey none r2 = r2 ∧
    decode_access_token (effectiveSecretKey none r2) t
        (create_access_token (effectiveSecretKey none r1) now sub role ext ttl)
      = .error .BadSignature := by
  refine ⟨rfl, rfl, ?_⟩
  have hs : sign (effectiveSecretKey none r1)
        ⟨sub, role, ext, now + ttl⟩
      ≠ sign (effectiveSecretKey none r2)
        ⟨sub, role, ext, now + ttl⟩ := by
    intro h
    exact hne (sign_secret_injective _ h)
  simp [decode_access_token, create_access_token, hs]

/-- Witness for C10 with two concrete distinct fresh secrets. -/
theorem C10_default_secret_not_portable_witness :
    effectiveSecretKey none "r1" = "r1" ∧ effectiveSecretKey none "r2" = "r2" ∧
    decode_access_token (effectiveSecretKey none "r2") 0
        (create_access_token (effectiveSecretKey none "r1") 0
          (some "user") (some "user") (some "EXT") 30)
      = .error .BadSignature :=
  C10_default_secret_not_portable "r1" "r2" (by decide) 0 30 0
    (some "user") (some "user") (some "EXT")

/-! Authorization Gate claims -/

/-- C1: whenever the token carries subject and role claims but the
role currently stored for that subject differs from the claimed role,
`get_current_user` rejects the request with the generic 401
authentication failure instead of honoring the stale claim. -/
theorem C1_stale_role_rejected (db : Db) (secret : String) (now : Nat)
    (tok : Token) (username role : String) (user : UserRecord)
    (hsub : tok.payload.sub = some username)
    (hrole : tok.payload.role = some role)
    (hget : get_user db username = some user)
    (hne : user.role ≠ role) :
    get_current_user db secret now tok = .error credentials_exception := by
  unfold get_current_user
  split
  · rfl
  · next payload heq =>
    rw [decode_ok_payload heq]
    simp only [hsub, hrole, hget]
    simp [hne]

/-- Witness for C1: the stored role was changed to admin after a
user-role token was issued; authentication fails with the 401. -/
theorem C1_stale_role_rejected_witness :
    get_current_user [⟨"alice", get_password_hash "pw", "admin", true⟩]
        "k" 0
        (create_access_token "k" 0 (some "alice") (some "user") (some "E") 30)
      = .error credentials_exception :=
  C1_stale_role_rejected _ "k" 0 _ "alice" "user"
    ⟨"alice", get_password_hash "pw", "admin", true⟩ rfl rfl rfl (by decide)

/-- C3 counterexample: an authenticated but deactivated user is
rejected with status 400 and the cause-revealing detail
"Inactive user", not with a 401 or 403. -/
theorem C3_counterexample_inactive_400 :
    get_current_active_user
        [⟨"alice", get_password_hash "pw", "user", false⟩] "k" 0
        (create_access_token "k" 0 (some "alice") (some "user") (some "E") 30)
      = .error ⟨400, "Inactive user"⟩ ∧
    (400 : Nat) ≠ 401 ∧ (400 : Nat) ≠ 403 :=
  ⟨rfl, by decide, by decide⟩

/-- C3 (amended): local validation failures are terminal with status
400, 401 or 403: every failure of `get_current_user` (decode error,
missing claim, unknown user, role mismatch) is the single generic 401;
a deactivated user yields 400 with detail "Inactive user" (revealing
that stage); a failed login credential check yields 401; and an
authenticated user whose stored role is insufficient for the route
receives the 403 response. -/
theorem C3_local_failure_statuses (db : Db) (secret base : String)
    (now eM : Nat) (tok : Token) (username password : String)
    (exch : ExchangeOutcome)
    (upstream : UpstreamRequest → UpstreamOutcome) :
    (∀ e, get_current_user db secret now tok = .error e →
        e = credentials_exception) ∧
    (∀ e, get_current_active_user db secret now tok = .error e →
        e = credentials_exception ∨ e = ⟨400, "Inactive user"⟩) ∧
    (authenticate_user db username password = none →
        login_for_access_token db secret eM now username password exch
          = .error ⟨401, "Incorrect username or password"⟩) ∧
    (∀ u, get_current_active_user db secret now tok = .ok u →
      (¬ u.role = "admin" →
        (read_admin_route db secret base now tok upstream).1
          = .failure ⟨403, "Not enough permissions"⟩) ∧
      (¬ (u.role = "user" ∨ u.role = "admin") →
        (read_user_route db secret base now tok upstream).1
          = .failure ⟨403, "Not enough permissions"⟩)) :=
  ⟨get_current_user_error_generic db secret now tok,
   get_current_active_user_error_cases db secret now tok,
   by intro h; simp [login_for_access_token, h],
   by
    intro u hu
    constructor
    · intro hr
      simp only [read_admin_route, hu]
      rw [if_pos hr]
    · intro hr
      simp only [read_user_route, hu]
      rw [if_pos ⟨fun h1 => hr (Or.inl h1), fun h2 => hr (Or.inr h2)⟩]⟩

/-- Witness for the amended C3 at concrete requests: an inactive user
gets the 400, a failed credential check gets the 401, and the seeded
role-"user" account gets the 403 from GET /admin. -/
theorem C3_local_failure_statuses_witness :
    ((⟨400, "Inactive user"⟩ : HTTPError) = credentials_exception ∨
      (⟨400, "Inactive user"⟩ : HTTPError) = ⟨400, "Inactive user"⟩) ∧
    login_for_access_token [] "k" 30 0 "alice" "pw" .unreachable
      = .error ⟨401, "Incorrect username or password"⟩ ∧
    (read_admin_route INITIAL_USERS "k" "B" 0
          (create_access_token "k" 0 (some "user") (some "user")
            (some "EXT") 30)
          (fun _ => .unreachable)).1
      = .failure ⟨403, "Not enough permissions"⟩ :=
  ⟨(C3_local_failure_statuses
      [⟨"alice", get_password_hash "pw", "user", false⟩] "k" "B" 0 30
      (create_access_token "k" 0 (some "alice") (some "user") (some "E") 30)
      "alice" "pw" .unreachable (fun _ => .unreachable)).2.1
      ⟨400, "Inactive user"⟩ rfl,
   (C3_local_failure_statuses [] "k" "B" 0 30
      (create_access_token "k" 0 none none none 0)
      "alice" "pw" .unreachable (fun _ => .unreachable)).2.2.1 rfl,
   ((C3_local_failure_statuses INITIAL_USERS "k" "B" 0 30
      (create_access_token "k" 0 (some "user") (some "user") (some "EXT") 30)
      "alice" "pw" .unreachable (fun _ => .unreachable)).2.2.2
      ⟨"user", get_password_hash "L0XuwPOdS5U", "user", true⟩ rfl).1
      (by decide)⟩

/-- C4: POST /token gives 401 exactly when the local credential check
fails; with valid local credentials an unreachable upstream gives 500,
and a non-200 upstream status also gives 500 (its inner HTTPException
is swallowed by the generic handler) — never 401. -/
theorem C4_login_error_separation (db : Db) (secret : String)
    (eM now : Nat) (username password : String) :
    (authenticate_user db username password = none →
      ∀ exch, login_for_access_token db secret eM now username password exch
        = .error ⟨401, "Incorrect username or password"⟩) ∧
    (∀ user, authenticate_user db username password = some user →
      login_for_access_token db secret eM now username password .unreachable
        = .error ⟨500, "upstream connection error"⟩ ∧
      ∀ status body, status ≠ 200 →
        login_for_access_token db secret eM now username password
            (.resp status body)
          = .error ⟨500, "upstream token endpoint rejected the exchange"⟩) := by
  constructor
  · intro h exch
    simp [login_for_access_token, h]
  · intro user h
    constructor
    · simp [login_for_access_token, h]
    · intro status body hs
      simp [login_for_access_token, h, hs]

/-- Witness for C4 over the seeded credential store. -/
theorem C4_login_error_separation_witness :
    login_for_access_token INITIAL_USERS "k" 30 0 "user" "wrong" .unreachable
      = .error ⟨401, "Incorrect username or password"⟩ ∧
    login_for_access_token INITIAL_USERS "k" 30 0 "user" "L0XuwPOdS5U"
        .unreachable
      = .error ⟨500, "upstream connection error"⟩ ∧
    login_for_access_token INITIAL_USERS "k" 30 0 "user" "L0XuwPOdS5U"
        (.resp 503 none)
      = .error ⟨500, "upstream token endpoint rejected the exchange"⟩ :=
  ⟨(C4_login_error_separation INITIAL_USERS "k" 30 0 "user" "wrong").1
      rfl .unreachable,
   ((C4_login_error_separation INITIAL_USERS "k" 30 0 "user" "L0XuwPOdS5U").2
      ⟨"user", get_password_hash "L0XuwPOdS5U", "user", true⟩ rfl).1,
   ((C4_login_error_separation INITIAL_USERS "k" 30 0 "user" "L0XuwPOdS5U").2
      ⟨"user", get_password_hash "L0XuwPOdS5U", "user", true⟩ rfl).2
      503 none (by decide)⟩

/-- C2: past authentication, GET /admin fails the authorization check
with the 403 response exactly when the stored role is not "admin", and
GET /user fails it with the 403 response exactly when the stored role
is neither "user" nor "admin". -/
theorem C2_route_authorization (db : Db) (secret base : String)
    (now : Nat) (tok : Token)
    (upstream : UpstreamRequest → UpstreamOutcome) (u : UserRecord)
    (hauth : get_current_active_user db secret now tok = .ok u) :
    ((read_admin_route db secret base now tok upstream).1
        = .failure ⟨403, "Not enough permissions"⟩ ↔ ¬ u.role = "admin") ∧
    ((read_user_route db secret base now tok upstream).1
        = .failure ⟨403, "Not enough permissions"⟩ ↔
          ¬ (u.role = "user" ∨ u.role = "admin")) := by
  constructor
  · by_cases h : u.role = "admin"
    · simp only [read_admin_route, hauth]
      rw [if_neg (fun hc => hc h)]
      refine iff_of_false ?_ (not_not_intro h)
      rcases hd : decode_access_token secret now tok with _ | payload
      · simp [hd]
      · by_cases hext : payload.ext_token.getD "" = ""
        · simp [hd, hext]
        · rcases hup : upstream ⟨base ++ "/admin", payload.ext_token.getD ""⟩
            with _ | body
          · simp [hd, hext, hup]
          · rcases body with _ | s <;> simp [hd, hext, hup]
    · simp only [read_admin_route, hauth]
      rw [if_pos h]
      exact iff_of_true rfl h
  · by_cases h : u.role = "user" ∨ u.role = "admin"
    · simp only [read_user_route, hauth]
      rw [if_neg (fun hc => h.elim hc.1 hc.2)]
      refine iff_of_false ?_ (not_not_intro h)
      rcases hd : decode_access_token secret now tok with _ | payload
      · simp [hd]
      · by_cases hext : payload.ext_token.getD "" = ""
        · simp [hd, hext]
        · rcases hup : upstream ⟨base ++ "/user", payload.ext_token.getD ""⟩
            with _ | body
          · simp [hd, hext, hup]
          · rcases body with _ | s <;> simp [hd, hext, hup]
    · simp only [read_user_route, hauth]
      rw [if_pos ⟨fun h1 => h (Or.inl h1), fun h2 => h (Or.inr h2)⟩]
      exact iff_of_true rfl h

/-- Witness for C2: the seeded role-"user" account gets the 403 from
GET /admin and passes the authorization check of GET /user. -/
theorem C2_route_authorization_witness :
    ((read_admin_route INITIAL_USERS "k" "B" 0
          (create_access_token "k" 0 (some "user") (some "user")
            (some "EXT") 30)
          (fun _ => .response (some "ok"))).1
        = .failure ⟨403, "Not enough permissions"⟩ ↔ ¬ "user" = "admin") ∧
    ((read_user_route INITIAL_USERS "k" "B" 0
          (create_access_token "k" 0 (some "user") (some "user")
            (some "EXT") 30)
          (fun _ => .response (some "ok"))).1
        = .failure ⟨403, "Not enough permissions"⟩ ↔
          ¬ ("user" = "user" ∨ "user" = "admin")) :=
  C2_route_authorization INITIAL_USERS "k" "B" 0
    (create_access_token "k" 0 (some "user") (some "user") (some "EXT") 30)
    (fun _ => .response (some "ok"))
    ⟨"user", get_password_hash "L0XuwPOdS5U", "user", true⟩ rfl

/-- C8: for an authenticated, authorized request, each route issues a
GET to the corresponding upstream path carrying the token's embedded
upstream credential as the Bearer header, and a transport failure of
that upstream call surfaces to the caller as status 500. -/
theorem C8_proxy_forwarding (db : Db) (secret base : String) (now : Nat)
    (tok : Token) (upstream : UpstreamRequest → UpstreamOutcome)
    (u : UserRecord) (ext : String)
    (hauth : get_current_active_user db secret now tok = .ok u)
    (hext : tok.payload.ext_token = some ext) (hne : ext ≠ "") :
    ((u.role = "user" ∨ u.role = "admin") →
      (read_user_route db secret base now tok upstream).2
        = some ⟨base ++ "/user", ext⟩ ∧
      (upstream ⟨base ++ "/user", ext⟩ = .unreachable →
        (read_user_route db secret base now tok upstream).1
          = .failure ⟨500, "upstream connection error"⟩)) ∧
    (u.role = "admin" →
      (read_admin_route db secret base now tok upstream).2
        = some ⟨base ++ "/admin", ext⟩ ∧
      (upstream ⟨base ++ "/admin", ext⟩ = .unreachable →
        (read_admin_route db secret base now tok upstream).1
          = .failure ⟨500, "upstream connection error"⟩)) := by
  have hdec := get_current_user_ok_decode (get_current_active_user_ok hauth)
  constructor
  · intro hrole
    have hroute : read_user_route db secret base now tok upstream
        = (match upstream ⟨base ++ "/user", ext⟩ with
           | .unreachable => .failure ⟨500, "upstream connection error"⟩
           | .response none => .failure ⟨500, "response body is not JSON"⟩
           | .response (some body) => .success body,
           some ⟨base ++ "/user", ext⟩) := by
      simp only [read_user_route, hauth, hdec, hext, Option.getD_some]
      rw [if_neg (fun hc => hrole.elim hc.1 hc.2), if_neg hne]
      cases upstream ⟨base ++ "/user", ext⟩ with
      | unreachable => rfl
      | response body => cases body <;> rfl
    refine ⟨by rw [hroute], ?_⟩
    intro hup
    rw [hroute, hup]
  · intro hrole
    have hroute : read_admin_route db secret base now tok upstream
        = (match upstream ⟨base ++ "/admin", ext⟩ with
           | .unreachable => .failure ⟨500, "upstream connection error"⟩
           | .response none => .failure ⟨500, "response body is not JSON"⟩
           | .response (some body) => .success body,
           some ⟨base ++ "/admin", ext⟩) := by
      simp only [read_admin_route, hauth, hdec, hext, Option.getD_some]
      rw [if_neg (fun hc => hc hrole), if_neg hne]
      cases upstream ⟨base ++ "/admin", ext⟩ with
      | unreachable => rfl
      | response body => cases body <;> rfl
    refine ⟨by rw [hroute], ?_⟩
    intro hup
    rw [hroute, hup]

/-- Witness for C8: the seeded role-"user" account with an unreachable
upstream; GET /user forwards to the upstream `/user` path with the
embedded credential and answers 500. -/
theorem C8_proxy_forwarding_witness :
    (read_user_route INITIAL_USERS "k" "B" 0
          (create_access_token "k" 0 (some "user") (some "user")
            (some "EXT") 30)
          (fun _ => .unreachable)).2
      = some ⟨"B" ++ "/user", "EXT"⟩ ∧
    (read_user_route INITIAL_USERS "k" "B" 0
          (create_access_token "k" 0 (some "user") (some "user")
            (some "EXT") 30)
          (fun _ => .unreachable)).1
      = .failure ⟨500, "upstream connection error"⟩ :=
  have h := (C8_proxy_forwarding INITIAL_USERS "k" "B" 0
      (create_access_token "k" 0 (some "user") (some "user") (some "EXT") 30)
      (fun _ => .unreachable)
      ⟨"user", get_password_hash "L0XuwPOdS5U", "user", true⟩ "EXT"
      rfl rfl (by decide)).1 (Or.inl rfl)
  ⟨h.1, h.2 rfl⟩

/-- C9: a validly signed, unexpired token whose subject and role agree
with the store but which lacks the `ext_token` claim passes
authentication, and both protected routes then answer 500 — the
internal 401 raised for the missing upstream credential is swallowed
by the generic exception handler — not 401. -/
theorem C9_missing_ext_claim (db : Db) (secret base : String)
    (now : Nat) (tok : Token)
    (upstream : UpstreamRequest → UpstreamOutcome) (u : UserRecord)
    (hauth : get_current_user db secret now tok = .ok u)
    (hact : u.is_active = true)
    (hext : tok.payload.ext_token = none) :
    get_current_active_user db secret now tok = .ok u ∧
    ((u.role = "user" ∨ u.role = "admin") →
      (read_user_route db secret base now tok upstream).1
        = .failure ⟨500, "401: External token not found"⟩) ∧
    (u.role = "admin" →
      (read_admin_route db secret base now tok upstream).1
        = .failure ⟨500, "401: External token not found"⟩) := by
  have hactive : get_current_active_user db secret now tok = .ok u := by
    unfold get_current_active_user
    rw [hauth]
    simp [hact]
  have hdec := get_current_user_ok_decode hauth
  refine ⟨hactive, ?_, ?_⟩
  · intro hrole
    simp only [read_user_route, hactive, hdec, hext]
    rw [if_neg (fun hc => hrole.elim hc.1 hc.2)]
    simp
  · intro hrole
    simp only [read_admin_route, hactive, hdec, hext]
    rw [if_neg (fun hc => hc hrole)]
    simp

/-- Witness for C9: a token for the seeded "user" account without an
`ext_token` claim authenticates and GET /user answers 500. -/
theorem C9_missing_ext_claim_witness :
    get_current_active_user INITIAL_USERS "k" 0
        (create_access_token "k" 0 (some "user") (some "user") none 30)
      = .ok ⟨"user", get_password_hash "L0XuwPOdS5U", "user", true⟩ ∧
    (read_user_route INITIAL_USERS "k" "B" 0
          (create_access_token "k" 0 (some "user") (some "user") none 30)
          (fun _ => .unreachable)).1
      = .failure ⟨500, "401: External token not found"⟩ :=
  have h := C9_missing_ext_claim INITIAL_USERS "k" "B" 0
      (create_access_token "k" 0 (some "user") (some "user") none 30)
      (fun _ => .unreachable)
      ⟨"user", get_password_hash "L0XuwPOdS5U", "user", true⟩
      rfl rfl rfl
  ⟨h.1, h.2.1 (Or.inl rfl)⟩

end FastapiUsersApi
